import Mathlib

/-!
# Verification of the Migration Orchestration Core

Shallow embedding of the migration-orchestration subsystem of the
agentic-ai-platform repository: the risk-scoring model
(`src/risk/risk_assessor.py`), the migration-plan state machine
(`src/orchestration/migration_orchestrator.py`), and the cutover
coordinator (`src/cutover/cutover_coordinator.py`), together with the
data model of `src/models/customer.py` and `src/models/risk.py`.

Python floats are modelled as rationals (`ℚ`); `datetime.utcnow()` and
`uuid.uuid4()` are modelled as explicit oracle parameters (a `Nat`
timestamp and a `Nat → String` stream of fresh identifier suffixes),
since neither influences any score or status computation; the mutable
registries (`migration_plans`, `active_cutovers`) are modelled as
finite maps `String → Option _` threaded through each operation.
-/

namespace AgenticMigration

/-- `ChannelType` enum from `src/models/customer.py`. -/
inductive ChannelType
  | edi | sftp | rest_api | soap_api | thick_client | web_portal
deriving DecidableEq, Repr

/-- String value of a `ChannelType` (pydantic `use_enum_values`). -/
def ChannelType.val : ChannelType → String
  | .edi => "edi"
  | .sftp => "sftp"
  | .rest_api => "rest_api"
  | .soap_api => "soap_api"
  | .thick_client => "thick_client"
  | .web_portal => "web_portal"

/-- `MigrationStatus` enum from `src/models/customer.py`. -/
inductive MigrationStatus
  | pending | planning | risk_assessment | simulation | ready
  | in_progress | completed | failed | rolled_back
deriving DecidableEq, Repr

/-- `RiskCategory` enum from `src/models/risk.py`. -/
inductive RiskCategory
  | technical | business | compliance | operational | integration
deriving DecidableEq, Repr

/-- `RiskSeverity` enum from `src/models/risk.py`. -/
inductive RiskSeverity
  | low | medium | high | critical
deriving DecidableEq, Repr

/-- String value of a `RiskSeverity` (pydantic `use_enum_values`). -/
def RiskSeverity.val : RiskSeverity → String
  | .low => "low"
  | .medium => "medium"
  | .high => "high"
  | .critical => "critical"

/-- `IntegrationChannel` model from `src/models/customer.py`. -/
structure IntegrationChannel where
  channel_id : String
  channel_type : ChannelType
  name : String
  legacy_endpoint : Option String
  target_endpoint : Option String
  is_active : Bool
  transaction_volume : Nat
deriving DecidableEq, Repr

/-- `Customer` model from `src/models/customer.py` (`created_at` as a
`Nat` timestamp). -/
structure Customer where
  customer_id : String
  name : String
  industry : Option String
  channels : List IntegrationChannel
  business_criticality : String
  compliance_requirements : List String
  contact_email : Option String
  contact_phone : Option String
  created_at : Nat
deriving DecidableEq, Repr

/-- Python truthiness of an `Optional[str]`: `None` and `""` are falsy. -/
def optTruthy : Option String → Bool
  | none => false
  | some s => !(s == "")

/-- Python `str.lower()` (ASCII case folding, character by character). -/
def pyLower (s : String) : String := ⟨s.data.map Char.toLower⟩

/-- `RiskFactor` model from `src/models/risk.py`. -/
structure RiskFactor where
  factor_id : String
  category : RiskCategory
  severity : RiskSeverity
  description : String
  impact_score : ℚ
  likelihood_score : ℚ
  mitigation_strategy : Option String
deriving DecidableEq, Repr

/-- The `risk_score` property of `RiskFactor`:
`(impact_score * likelihood_score) / 100`. -/
def RiskFactor.risk_score (f : RiskFactor) : ℚ :=
  (f.impact_score * f.likelihood_score) / 100

/-- `RiskAssessment` model from `src/models/risk.py` (`assessed_at` as a
`Nat` timestamp). -/
structure RiskAssessment where
  assessment_id : String
  customer_id : String
  channel_id : Option String
  risk_factors : List RiskFactor
  overall_risk_score : ℚ
  risk_level : RiskSeverity
  migration_readiness_score : ℚ
  recommended_actions : List String
  assessed_at : Nat
deriving Repr

namespace RiskAssessor

/-- `self.risk_weights` from `RiskAssessor.__init__`. -/
def risk_weights : RiskCategory → ℚ
  | .technical => 25 / 100
  | .business => 30 / 100
  | .compliance => 25 / 100
  | .operational => 15 / 100
  | .integration => 5 / 100

/-- `RiskAssessor._determine_risk_level`. -/
def determine_risk_level (risk_score : ℚ) : RiskSeverity :=
  if 70 ≤ risk_score then .critical
  else if 50 ≤ risk_score then .high
  else if 30 ≤ risk_score then .medium
  else .low

/-- `RiskAssessor._score_to_severity` (delegates to
`_determine_risk_level`). -/
def score_to_severity (score : ℚ) : RiskSeverity :=
  determine_risk_level score

/-- The `criticality_map` dictionary of
`RiskAssessor._assess_business_criticality`, with its `(30, 50)`
default for unknown keys. -/
def criticality_map (s : String) : ℚ × ℚ :=
  if s = "low" then (10, 30)
  else if s = "medium" then (30, 50)
  else if s = "high" then (60, 80)
  else if s = "critical" then (80, 95)
  else (30, 50)

/-- `RiskAssessor._assess_business_criticality`. -/
def assess_business_criticality (uid : String) (c : Customer) : List RiskFactor :=
  let p := criticality_map (pyLower c.business_criticality)
  [{ factor_id := "BIZ-CRIT-" ++ uid,
     category := .business,
     severity := score_to_severity ((p.1 * p.2) / 100),
     description := "Business criticality level: " ++ c.business_criticality,
     impact_score := p.1,
     likelihood_score := p.2,
     mitigation_strategy :=
       some "Implement parallel run and staged rollout for critical customers" }]

/-- Loop body of `RiskAssessor._assess_compliance`: the factor built for
one compliance requirement. -/
def complianceFactor (uid : String) (requirement : String) : RiskFactor :=
  { factor_id := "COMP-" ++ uid,
    category := .compliance,
    severity := .high,
    description := "Compliance requirement: " ++ requirement,
    impact_score := 70,
    likelihood_score := 40,
    mitigation_strategy :=
      some ("Ensure " ++ requirement ++ " compliance validation in simulation phase") }

/-- The `for requirement in customer.compliance_requirements` loop of
`RiskAssessor._assess_compliance`, threading the uuid stream by index. -/
def assess_compliance_loop (u : Nat → String) : Nat → List String → List RiskFactor
  | _, [] => []
  | i, req :: rest => complianceFactor (u i) req :: assess_compliance_loop u (i + 1) rest

/-- `RiskAssessor._assess_compliance`. -/
def assess_compliance (u : Nat → String) (c : Customer) : List RiskFactor :=
  assess_compliance_loop u 0 c.compliance_requirements

/-- The `has_legacy` check of `RiskAssessor._assess_channel_complexity`:
any channel of type EDI or THICK_CLIENT. -/
def hasLegacy (c : Customer) : Bool :=
  c.channels.any (fun ch =>
    ch.channel_type == ChannelType.edi || ch.channel_type == ChannelType.thick_client)

/-- `RiskAssessor._assess_channel_complexity`. -/
def assess_channel_complexity (u1 u2 : String) (c : Customer) : List RiskFactor :=
  (if 5 < c.channels.length then
    [{ factor_id := "CH-COUNT-" ++ u1,
       category := .integration,
       severity := .high,
       description := "High number of integration channels: " ++ toString c.channels.length,
       impact_score := 65,
       likelihood_score := 60,
       mitigation_strategy := some "Prioritize channels and migrate in phases" }]
   else []) ++
  (if hasLegacy c then
    [{ factor_id := "LEGACY-CH-" ++ u2,
       category := .technical,
       severity := .medium,
       description := "Customer uses legacy channel types (EDI or thick client)",
       impact_score := 55,
       likelihood_score := 50,
       mitigation_strategy :=
         some "Use channel-specific migration playbooks for legacy integrations" }]
   else [])

/-- The missing-contact check of `RiskAssessor._assess_operational_factors`
(Python truthiness on the two optional contact fields). -/
def noContact (c : Customer) : Bool :=
  !(optTruthy c.contact_email) && !(optTruthy c.contact_phone)

/-- `RiskAssessor._assess_operational_factors`. -/
def assess_operational_factors (uid : String) (c : Customer) : List RiskFactor :=
  if noContact c then
    [{ factor_id := "OP-CONTACT-" ++ uid,
       category := .operational,
       severity := .medium,
       description := "No contact information available for customer",
       impact_score := 40,
       likelihood_score := 60,
       mitigation_strategy := some "Establish communication channel before migration" }]
  else []

/-- Per-category score list built by `RiskAssessor._calculate_overall_risk`
(`category_scores[factor.category].append(factor.risk_score)`). -/
def categoryScores (fs : List RiskFactor) (cat : RiskCategory) : List ℚ :=
  (fs.filter (fun f => f.category == cat)).map (fun f => f.risk_score)

/-- One category's summand in `RiskAssessor._calculate_overall_risk`:
`avg_score * weight` when the category collected any scores, else 0. -/
def categoryContribution (fs : List RiskFactor) (cat : RiskCategory) : ℚ :=
  let scores := categoryScores fs cat
  if scores = [] then 0
  else (scores.sum / scores.length) * risk_weights cat

/-- The iteration order over `RiskCategory` (the sum is order independent). -/
def allCategories : List RiskCategory :=
  [.technical, .business, .compliance, .operational, .integration]

/-- `RiskAssessor._calculate_overall_risk`. -/
def calculate_overall_risk (fs : List RiskFactor) : ℚ :=
  if fs = [] then 0
  else min 100 ((allCategories.map (categoryContribution fs)).sum)

/-- `RiskAssessor._generate_recommendations`. -/
def generate_recommendations (fs : List RiskFactor) (c : Customer) : List String :=
  (if (fs.filter (fun f =>
        f.severity == RiskSeverity.high || f.severity == RiskSeverity.critical)).isEmpty
   then []
   else ["Implement phased migration approach due to high-risk factors",
         "Conduct thorough simulation testing before cutover"]) ++
  (if c.compliance_requirements.isEmpty then []
   else ["Validate compliance requirements in test environment"]) ++
  (if 3 < c.channels.length then
    ["Prioritize channels by business impact and migrate sequentially"]
   else []) ++
  ["Establish rollback procedures for each migration phase",
   "Set up real-time monitoring during cutover period"]

/-- The customer-level risk-factor list assembled by
`RiskAssessor.assess_customer` (business criticality, compliance,
channel complexity, operational factors, in source order). -/
def customerRiskFactors (u : Nat → String) (c : Customer) : List RiskFactor :=
  assess_business_criticality (u 1) c ++
  assess_compliance (fun i => u (2 + i)) c ++
  assess_channel_complexity (u 1000) (u 1001) c ++
  assess_operational_factors (u 1002) c

/-- `RiskAssessor.assess_customer`.  `u` is the uuid oracle, `now` the
clock value for `assessed_at`. -/
def assess_customer (u : Nat → String) (now : Nat) (c : Customer) : RiskAssessment :=
  let risk_factors := customerRiskFactors u c
  let overall_risk_score := calculate_overall_risk risk_factors
  { assessment_id := "RISK-" ++ u 0,
    customer_id := c.customer_id,
    channel_id := none,
    risk_factors := risk_factors,
    overall_risk_score := overall_risk_score,
    risk_level := determine_risk_level overall_risk_score,
    migration_readiness_score := 100 - overall_risk_score,
    recommended_actions := generate_recommendations risk_factors c,
    assessed_at := now }

/-- The business-criticality factor's `risk_score` as a function of the
customer (impact × likelihood / 100 of the criticality pair). -/
def bizRisk (c : Customer) : ℚ :=
  let p := criticality_map (pyLower c.business_criticality)
  (p.1 * p.2) / 100

/-- Closed form of the customer-level overall risk score (derived; proved
equal to `assess_customer`'s score below). -/
def customerRiskClosed (c : Customer) : ℚ :=
  min 100
    ((if hasLegacy c then (55 * 50 / 100 : ℚ) * (25 / 100) else 0)
      + bizRisk c * (30 / 100)
      + (if c.compliance_requirements = [] then 0 else (70 * 40 / 100 : ℚ) * (25 / 100))
      + (if noContact c then (40 * 60 / 100 : ℚ) * (15 / 100) else 0)
      + (if 5 < c.channels.length then (65 * 60 / 100 : ℚ) * (5 / 100) else 0))

/-- The `complexity_map` of `RiskAssessor._assess_channel_technical_risk`
(every channel type is a key, so the `(40.0, "Standard channel migration")`
default is unreachable). -/
def complexity_map : ChannelType → ℚ × String
  | .edi => (70, "EDI migrations require protocol mapping and validation")
  | .thick_client => (65, "Thick client requires application deployment and testing")
  | .sftp => (40, "SFTP migration requires file format validation")
  | .soap_api => (50, "SOAP API migration requires interface compatibility")
  | .rest_api => (30, "REST API migration is relatively straightforward")
  | .web_portal => (35, "Web portal migration requires UI/UX validation")

/-- `RiskAssessor._assess_channel_technical_risk`. -/
def assess_channel_technical_risk (uid : String) (ch : IntegrationChannel) :
    List RiskFactor :=
  let p := complexity_map ch.channel_type
  [{ factor_id := "TECH-" ++ uid,
     category := .technical,
     severity := score_to_severity p.1,
     description := p.2,
     impact_score := p.1,
     likelihood_score := 50,
     mitigation_strategy := some "Use channel-specific playbook and thorough testing" }]

/-- `RiskAssessor._assess_integration_complexity`. -/
def assess_integration_complexity (uid : String) (ch : IntegrationChannel) :
    List RiskFactor :=
  if !(optTruthy ch.target_endpoint) then
    [{ factor_id := "INT-ENDPOINT-" ++ uid,
       category := .integration,
       severity := .high,
       description := "Target endpoint not configured",
       impact_score := 75,
       likelihood_score := 100,
       mitigation_strategy :=
         some "Configure and validate target endpoint before migration" }]
  else []

/-- `RiskAssessor._assess_transaction_volume_risk`. -/
def assess_transaction_volume_risk (uid : String) (ch : IntegrationChannel) :
    List RiskFactor :=
  if 10000 < ch.transaction_volume then
    [{ factor_id := "VOL-HIGH-" ++ uid,
       category := .operational,
       severity := .high,
       description := "High transaction volume: " ++ toString ch.transaction_volume ++ "/day",
       impact_score := 70,
       likelihood_score := 45,
       mitigation_strategy := some "Implement load testing and performance validation" }]
  else []

/-- `RiskAssessor._generate_channel_recommendations`. -/
def generate_channel_recommendations (ch : IntegrationChannel) : List String :=
  ["Use " ++ ch.channel_type.val ++ " migration playbook",
   "Validate channel configuration in simulation environment"] ++
  (if 5000 < ch.transaction_volume then
    ["Conduct load testing before production cutover"]
   else []) ++
  ["Implement transaction logging for troubleshooting"]

/-- `RiskAssessor.assess_channel`. -/
def assess_channel (u : Nat → String) (now : Nat) (c : Customer)
    (ch : IntegrationChannel) : RiskAssessment :=
  let risk_factors :=
    assess_channel_technical_risk (u 1) ch ++
    assess_integration_complexity (u 2) ch ++
    assess_transaction_volume_risk (u 3) ch
  let overall_risk_score := calculate_overall_risk risk_factors
  { assessment_id := "RISK-CH-" ++ u 0,
    customer_id := c.customer_id,
    channel_id := some ch.channel_id,
    risk_factors := risk_factors,
    overall_risk_score := overall_risk_score,
    risk_level := determine_risk_level overall_risk_score,
    migration_readiness_score := 100 - overall_risk_score,
    recommended_actions := generate_channel_recommendations ch,
    assessed_at := now }

end RiskAssessor

/-- `ChannelMigration` model from `src/models/customer.py`
(`cutover_timestamp` as an optional `Nat` timestamp). -/
structure ChannelMigration where
  channel_id : String
  channel_type : ChannelType
  status : MigrationStatus
  risk_score : ℚ
  playbook_id : Option String
  simulation_passed : Bool
  cutover_timestamp : Option Nat
  rollback_available : Bool
  notes : List String
deriving DecidableEq, Repr

/-- `MigrationPlan` model from `src/models/customer.py`. -/
structure MigrationPlan where
  plan_id : String
  customer_id : String
  customer_name : String
  overall_status : MigrationStatus
  channel_migrations : List ChannelMigration
  overall_risk_score : ℚ
  created_at : Nat
  planned_start : Option Nat
  planned_completion : Option Nat
  actual_start : Option Nat
  actual_completion : Option Nat
  migration_strategy : String
deriving DecidableEq, Repr

/-- The orchestrator's `migration_plans` registry, a dict keyed by plan id. -/
abbrev PlanStore := String → Option MigrationPlan

/-- The empty registry (a fresh `MigrationOrchestrator`). -/
def emptyPlanStore : PlanStore := fun _ => none

/-- Dict update `self.migration_plans[plan_id] = plan`. -/
def storePlan (store : PlanStore) (pid : String) (p : MigrationPlan) : PlanStore :=
  fun k => if k = pid then some p else store k

/-- The `ValueError`s raised by `MigrationOrchestrator` entry points. -/
inductive OrchError
  | planNotFound (plan_id : String)
  | planNotReady (plan_id : String)
deriving DecidableEq, Repr

namespace MigrationOrchestrator

/-- Per-channel entry of the dictionary returned by
`MigrationOrchestrator.run_simulations`. -/
structure SimChannelResult where
  status : String
  success_rate : ℚ
  details : String
deriving DecidableEq, Repr

/-- Number of steps `PlaybookFactory.create_playbook(channel).generate_steps()`
returns, per channel type (`src/channels/playbooks.py`: EDI playbook has 7
steps; SFTP, thick-client and the API playbook 6 each; REST/SOAP/web-portal
all map to the API playbook). -/
def playbookStepCount : ChannelType → Nat
  | .edi => 7
  | .sftp => 6
  | .rest_api => 6
  | .soap_api => 6
  | .thick_client => 6
  | .web_portal => 6

/-- Loop body of `MigrationOrchestrator.run_simulations`: sets the channel
migration to SIMULATION, records the (hard-coded) pass, and moves it to
READY. -/
def simulateChannelMigration (cm : ChannelMigration) : ChannelMigration :=
  let cm := { cm with status := MigrationStatus.simulation }
  let cm := { cm with simulation_passed := true }
  { cm with status := MigrationStatus.ready }

/-- The per-channel result dict recorded by `run_simulations`. -/
def simPassedResult : SimChannelResult :=
  { status := "passed", success_rate := 985 / 10,
    details := "All test scenarios passed validation" }

/-- `MigrationOrchestrator.run_simulations`.  The intermediate
`plan.overall_status = SIMULATION` assignment is overwritten at the end of
the method by the READY-or-SIMULATION decision, which is kept. -/
def run_simulations (store : PlanStore) (pid : String) :
    Except OrchError (List (String × SimChannelResult)) × PlanStore :=
  match store pid with
  | none => (Except.error (OrchError.planNotFound pid), store)
  | some plan =>
    let cms := plan.channel_migrations.map simulateChannelMigration
    let simulation_results := cms.map (fun cm => (cm.channel_id, simPassedResult))
    let all_passed := cms.all (fun cm => cm.simulation_passed)
    let plan' := { plan with
      channel_migrations := cms,
      overall_status :=
        if all_passed then MigrationStatus.ready else MigrationStatus.simulation }
    (Except.ok simulation_results, storePlan store pid plan')

/-- The `channel_id is None or cm.channel_id == channel_id` filter used by
`execute_migration` and `rollback_migration`. -/
def matchesChannel (channel_id : Option String) (cm : ChannelMigration) : Bool :=
  match channel_id with
  | none => true
  | some cid => cm.channel_id == cid

/-- `MigrationOrchestrator._execute_channel_migration`: IN_PROGRESS, cutover
timestamp, then COMPLETED with a completion note. -/
def executeChannelMigration (now : Nat) (cm : ChannelMigration) : ChannelMigration :=
  let cm := { cm with status := MigrationStatus.in_progress,
                      cutover_timestamp := some now }
  { cm with status := MigrationStatus.completed,
            notes := cm.notes ++ ["Migration completed at " ++ toString now] }

/-- The `for channel_migration in channels_to_migrate` loop of
`execute_migration`: only the channel migrations selected by the
`channel_id` filter are executed; the rest pass through unchanged. -/
def executeTargets (channel_id : Option String) (now : Nat)
    (cms : List ChannelMigration) : List ChannelMigration :=
  cms.map (fun cm =>
    if matchesChannel channel_id cm then executeChannelMigration now cm else cm)

/-- `MigrationOrchestrator.execute_migration`.  Both `ValueError`s are raised
before any mutation, so the registry is returned unchanged on those paths. -/
def execute_migration (store : PlanStore) (pid : String)
    (channel_id : Option String) (now : Nat) :
    Except OrchError MigrationPlan × PlanStore :=
  match store pid with
  | none => (Except.error (OrchError.planNotFound pid), store)
  | some plan =>
    if plan.overall_status ≠ MigrationStatus.ready then
      (Except.error (OrchError.planNotReady pid), store)
    else
      let plan := { plan with overall_status := MigrationStatus.in_progress,
                              actual_start := some now }
      let cms := executeTargets channel_id now plan.channel_migrations
      let plan := { plan with channel_migrations := cms }
      let all_completed := cms.all (fun cm => cm.status == MigrationStatus.completed)
      let plan :=
        if all_completed then
          { plan with overall_status := MigrationStatus.completed,
                      actual_completion := some now }
        else plan
      (Except.ok plan, storePlan store pid plan)

/-- Loop body of `MigrationOrchestrator.rollback_migration` for a targeted
channel: roll back when `rollback_available`, else only note the refusal. -/
def rollbackChannelMigration (reason : String) (cm : ChannelMigration) :
    ChannelMigration :=
  if cm.rollback_available then
    { cm with status := MigrationStatus.rolled_back,
              notes := cm.notes ++ ["Rolled back: " ++ reason] }
  else
    { cm with notes := cm.notes ++ ["Rollback not available: " ++ reason] }

/-- The `for channel_migration in channels_to_rollback` loop of
`rollback_migration`. -/
def rollbackTargets (channel_id : Option String) (reason : String)
    (cms : List ChannelMigration) : List ChannelMigration :=
  cms.map (fun cm =>
    if matchesChannel channel_id cm then rollbackChannelMigration reason cm else cm)

/-- `MigrationOrchestrator.rollback_migration`.  `all_rolled_back` is taken
over the targeted channels only (after mutation), exactly as in the source. -/
def rollback_migration (store : PlanStore) (pid : String)
    (channel_id : Option String) (reason : String) :
    Except OrchError MigrationPlan × PlanStore :=
  match store pid with
  | none => (Except.error (OrchError.planNotFound pid), store)
  | some plan =>
    let cms := rollbackTargets channel_id reason plan.channel_migrations
    let all_rolled_back :=
      (cms.filter (matchesChannel channel_id)).all
        (fun cm => cm.status == MigrationStatus.rolled_back)
    let plan' := { plan with
      channel_migrations := cms,
      overall_status :=
        if all_rolled_back then MigrationStatus.rolled_back else plan.overall_status }
    (Except.ok plan', storePlan store pid plan')

/-- `MigrationOrchestrator._calculate_timeline`.  Time is in seconds:
`timedelta(days=d)` is `d * 86400`, `timedelta(weeks=w)` is `w * 7 * 86400`;
phased completion adds `2 weeks × channel count` to the start. -/
def calculate_timeline (plan : MigrationPlan) (customer : Customer) (now : Nat) :
    MigrationPlan :=
  if plan.migration_strategy = "phased" then
    let start := now + 7 * 86400
    { plan with planned_start := some start,
                planned_completion :=
                  some (start + customer.channels.length * 2 * 7 * 86400) }
  else if plan.migration_strategy = "big-bang" then
    let start := now + 14 * 86400
    { plan with planned_start := some start,
                planned_completion := some (start + 3 * 86400) }
  else
    let start := now + 7 * 86400
    { plan with planned_start := some start,
                planned_completion := some (start + 8 * 7 * 86400) }

/-- Loop body of `MigrationOrchestrator.create_migration_plan`: one
`ChannelMigration` per channel, with the channel-level risk assessment and
playbook notes. -/
def buildChannelMigration (u : Nat → String) (now : Nat) (customer : Customer)
    (ch : IntegrationChannel) : ChannelMigration :=
  let channel_risk := RiskAssessor.assess_channel u now customer ch
  { channel_id := ch.channel_id,
    channel_type := ch.channel_type,
    status := MigrationStatus.planning,
    risk_score := channel_risk.overall_risk_score,
    playbook_id := some ("PLAYBOOK-" ++ ch.channel_type.val),
    simulation_passed := false,
    cutover_timestamp := none,
    rollback_available := true,
    notes :=
      ["Migration playbook: " ++ toString (playbookStepCount ch.channel_type) ++ " steps",
       "Risk level: " ++ channel_risk.risk_level.val,
       "Readiness score: " ++ toString channel_risk.migration_readiness_score] }

/-- `MigrationOrchestrator.create_migration_plan`.  `u i` is the uuid stream
used for the `i`-th channel's assessment (`i = 0` covers the plan id and the
customer-level assessment). -/
def create_migration_plan (store : PlanStore) (u : Nat → Nat → String) (now : Nat)
    (customer : Customer) (strategy : String) : MigrationPlan × PlanStore :=
  let plan_id := "PLAN-" ++ u 0 0
  let customer_risk := RiskAssessor.assess_customer (fun j => u 0 (j + 1)) now customer
  let channel_migrations :=
    customer.channels.mapIdx (fun i ch => buildChannelMigration (u (i + 1)) now customer ch)
  let migration_plan : MigrationPlan :=
    { plan_id := plan_id,
      customer_id := customer.customer_id,
      customer_name := customer.name,
      overall_status := MigrationStatus.planning,
      channel_migrations := channel_migrations,
      overall_risk_score := customer_risk.overall_risk_score,
      created_at := now,
      planned_start := none,
      planned_completion := none,
      actual_start := none,
      actual_completion := none,
      migration_strategy := strategy }
  let migration_plan := calculate_timeline migration_plan customer now
  (migration_plan, storePlan store plan_id migration_plan)

end MigrationOrchestrator

/-- `CutoverStrategy` enum from `src/cutover/cutover_coordinator.py`. -/
inductive CutoverStrategy
  | immediate | gradual | parallel | canary
deriving DecidableEq, Repr

namespace CutoverCoordinator

/-- One step entry of a cutover plan (dict with `step`, `name`,
`description`, `status`). -/
structure CutoverStep where
  step : Nat
  name : String
  description : String
  status : String
deriving DecidableEq, Repr

/-- The `metrics` dict zeroed by `initiate_cutover`. -/
structure CutoverMetrics where
  error_rate : ℚ
  transaction_count : Nat
  latency_ms : ℚ
deriving DecidableEq, Repr

/-- The rollback dict built by `rollback_cutover`. -/
structure RollbackRecord where
  cutover_id : String
  rollback_initiated_at : Nat
  reason : String
  status : String
  steps : List String
  completed_at : Option Nat
deriving DecidableEq, Repr

/-- The cutover-plan dict stored in `active_cutovers` (with the optional
`rollback` and `completed_at` entries added by later operations). -/
structure CutoverPlan where
  cutover_id : String
  channel_id : String
  strategy : CutoverStrategy
  started_at : Nat
  status : String
  steps : List CutoverStep
  current_step : Nat
  metrics : CutoverMetrics
  rollback : Option RollbackRecord
  completed_at : Option Nat
deriving DecidableEq, Repr

/-- The coordinator's `active_cutovers` registry, keyed by cutover id. -/
abbrev CutoverStore := String → Option CutoverPlan

/-- The empty registry (a fresh `CutoverCoordinator`). -/
def emptyCutoverStore : CutoverStore := fun _ => none

/-- Dict update `self.active_cutovers[cutover_id] = plan`. -/
def storeCutover (store : CutoverStore) (cid : String) (p : CutoverPlan) :
    CutoverStore :=
  fun k => if k = cid then some p else store k

/-- The `ValueError` raised by `CutoverCoordinator` entry points. -/
inductive CutoverError
  | cutoverNotFound (cutover_id : String)
deriving DecidableEq, Repr

/-- `CutoverCoordinator._generate_cutover_steps`. -/
def generate_cutover_steps : CutoverStrategy → List CutoverStep
  | .immediate =>
    [⟨1, "Pre-cutover validation", "Validate modern system ready", "pending"⟩,
     ⟨2, "Switch traffic", "Route all traffic to modern platform", "pending"⟩,
     ⟨3, "Validate operation", "Confirm modern platform processing correctly", "pending"⟩]
  | .gradual =>
    [⟨1, "Route 10% traffic", "Send 10% of traffic to modern platform", "pending"⟩,
     ⟨2, "Monitor 10% traffic", "Monitor for 15 minutes", "pending"⟩,
     ⟨3, "Route 50% traffic", "Increase to 50% traffic", "pending"⟩,
     ⟨4, "Monitor 50% traffic", "Monitor for 30 minutes", "pending"⟩,
     ⟨5, "Route 100% traffic", "Route all traffic to modern platform", "pending"⟩,
     ⟨6, "Final validation", "Confirm full cutover successful", "pending"⟩]
  | .parallel =>
    [⟨1, "Start parallel run", "Process in both systems simultaneously", "pending"⟩,
     ⟨2, "Compare outputs", "Validate modern matches legacy", "pending"⟩,
     ⟨3, "Build confidence", "Run for configured period (e.g., 7 days)", "pending"⟩,
     ⟨4, "Switch to modern", "Make modern platform primary", "pending"⟩,
     ⟨5, "Stop legacy processing", "Decommission legacy system", "pending"⟩]
  | .canary =>
    [⟨1, "Select canary users", "Choose small subset of users", "pending"⟩,
     ⟨2, "Migrate canary users", "Move canary users to modern platform", "pending"⟩,
     ⟨3, "Monitor canary", "Monitor canary users for 48 hours", "pending"⟩,
     ⟨4, "Expand to all users", "Migrate remaining users", "pending"⟩,
     ⟨5, "Final validation", "Confirm all users migrated successfully", "pending"⟩]

/-- `CutoverCoordinator.initiate_cutover`.  Only `channel_migration.channel_id`
is copied into the stored plan; the `ChannelMigration` object itself is not
retained by the coordinator. -/
def initiate_cutover (store : CutoverStore) (channel_migration : ChannelMigration)
    (strategy : CutoverStrategy) (now : Nat) : CutoverPlan × CutoverStore :=
  let cutover_id := "CUTOVER-" ++ channel_migration.channel_id
  let cutover_plan : CutoverPlan :=
    { cutover_id := cutover_id,
      channel_id := channel_migration.channel_id,
      strategy := strategy,
      started_at := now,
      status := "initiated",
      steps := generate_cutover_steps strategy,
      current_step := 0,
      metrics := { error_rate := 0, transaction_count := 0, latency_ms := 0 },
      rollback := none,
      completed_at := none }
  (cutover_plan, storeCutover store cutover_id cutover_plan)

/-- The fixed 5-step reversal script of `CutoverCoordinator.rollback_cutover`. -/
def rollback_script : List String :=
  ["Stop routing traffic to modern platform",
   "Restore routing to legacy platform",
   "Verify legacy system operational",
   "Capture diagnostic logs",
   "Notify stakeholders"]

/-- `CutoverCoordinator.rollback_cutover`.  The method body reads and writes
only `self.active_cutovers`: it builds the rollback record (status
`rolling_back`, then `completed` after the simulated step loop) and sets the
stored cutover's status to `rolled_back`.  No `ChannelMigration` is reachable
from it. -/
def rollback_cutover (store : CutoverStore) (cutover_id : String) (reason : String)
    (now : Nat) : Except CutoverError RollbackRecord × CutoverStore :=
  match store cutover_id with
  | none => (Except.error (CutoverError.cutoverNotFound cutover_id), store)
  | some cutover =>
    let rollback : RollbackRecord :=
      { cutover_id := cutover_id,
        rollback_initiated_at := now,
        reason := reason,
        status := "rolling_back",
        steps := rollback_script,
        completed_at := none }
    let rollback := { rollback with status := "completed", completed_at := some now }
    let cutover := { cutover with status := "rolled_back", rollback := some rollback }
    (Except.ok rollback, storeCutover store cutover_id cutover)

end CutoverCoordinator

/-- The state of the whole migration system: the orchestrator's plan
registry (which owns every `ChannelMigration`, inside its plans) together
with the cutover coordinator's registry. -/
structure MigrationSystem where
  migration_plans : PlanStore
  active_cutovers : CutoverCoordinator.CutoverStore

/-- The whole-system effect of `CutoverCoordinator.rollback_cutover`: the
method's body references only the coordinator's `active_cutovers` registry,
so the orchestrator's plan registry — and with it every stored
`ChannelMigration` — passes through untouched. -/
def rollback_cutover_system (sys : MigrationSystem) (cutover_id : String)
    (reason : String) (now : Nat) :
    Except CutoverCoordinator.CutoverError CutoverCoordinator.RollbackRecord
      × MigrationSystem :=
  let r := CutoverCoordinator.rollback_cutover sys.active_cutovers cutover_id reason now
  (r.1, { sys with active_cutovers := r.2 })

/-! ### Concrete sample inputs (used by witnesses and counterexamples) -/

/-- A thick-client channel with the given id. -/
def thickChannel (cid : String) : IntegrationChannel :=
  { channel_id := cid, channel_type := .thick_client, name := "Desktop " ++ cid,
    legacy_endpoint := some "tcp://legacy", target_endpoint := some "https://modern",
    is_active := true, transaction_volume := 1200 }

/-- An EDI channel with the given id. -/
def ediChannel (cid : String) : IntegrationChannel :=
  { channel_id := cid, channel_type := .edi, name := "EDI " ++ cid,
    legacy_endpoint := some "van://legacy", target_endpoint := some "https://edi",
    is_active := true, transaction_volume := 8000 }

/-- Scenario-2 customer: 6 channels, all THICK_CLIENT or EDI, critical,
HIPAA and PCI-DSS. -/
def scenario2Customer : Customer :=
  { customer_id := "CUST-2", name := "Meridian Health", industry := some "healthcare",
    channels := [thickChannel "CH-1", thickChannel "CH-2", thickChannel "CH-3",
                 ediChannel "CH-4", ediChannel "CH-5", ediChannel "CH-6"],
    business_criticality := "critical",
    compliance_requirements := ["HIPAA", "PCI-DSS"],
    contact_email := some "ops@meridian.example", contact_phone := none,
    created_at := 0 }

/-- A customer with no channels at all. -/
def zeroChannelCustomer : Customer :=
  { customer_id := "CUST-0", name := "Empty Co", industry := none,
    channels := [], business_criticality := "low", compliance_requirements := [],
    contact_email := none, contact_phone := none, created_at := 0 }

/-- A channel migration in READY state. -/
def readyChannelMigration (cid : String) : ChannelMigration :=
  { channel_id := cid, channel_type := .rest_api, status := .ready,
    risk_score := 15, playbook_id := some "PLAYBOOK-rest_api",
    simulation_passed := true, cutover_timestamp := none,
    rollback_available := true, notes := [] }

/-- A stored plan in READY state with two channel migrations `A` and `B`. -/
def readyPlan : MigrationPlan :=
  { plan_id := "PLAN-1", customer_id := "CUST-1", customer_name := "Acme",
    overall_status := .ready,
    channel_migrations := [readyChannelMigration "A", readyChannelMigration "B"],
    overall_risk_score := 20, created_at := 0,
    planned_start := some 604800, planned_completion := some 3024000,
    actual_start := none, actual_completion := none,
    migration_strategy := "phased" }

/-- Registry holding `readyPlan` under `"PLAN-1"`. -/
def readyStore : PlanStore := storePlan emptyPlanStore "PLAN-1" readyPlan

/-- A stored plan still in PLANNING state (not ready). -/
def planningPlan : MigrationPlan :=
  { readyPlan with plan_id := "PLAN-2", overall_status := .planning,
                   channel_migrations := [{ readyChannelMigration "A" with
                                            status := .planning,
                                            simulation_passed := false }] }

/-- Registry holding `planningPlan` under `"PLAN-2"`. -/
def planningStore : PlanStore := storePlan emptyPlanStore "PLAN-2" planningPlan

/-- A channel migration that has completed its cutover. -/
def completedChannelMigration : ChannelMigration :=
  { channel_id := "CH-1", channel_type := .edi, status := .completed,
    risk_score := 30, playbook_id := some "PLAYBOOK-edi",
    simulation_passed := true, cutover_timestamp := some 1000,
    rollback_available := true, notes := [] }

/-- A plan whose single channel migration has completed. -/
def completedPlan : MigrationPlan :=
  { readyPlan with plan_id := "PLAN-3", overall_status := .completed,
                   channel_migrations := [completedChannelMigration] }

/-- A whole-system state: the plan owning `completedChannelMigration` is
stored, and a gradual cutover for it has been initiated. -/
def cutoverSystem : MigrationSystem :=
  { migration_plans := storePlan emptyPlanStore "PLAN-3" completedPlan,
    active_cutovers :=
      (CutoverCoordinator.initiate_cutover CutoverCoordinator.emptyCutoverStore
        completedChannelMigration CutoverStrategy.gradual 500).2 }

/-! ### Helper lemmas: the customer-level risk score in closed form -/

namespace RiskAssessor

lemma categoryScores_nil (cat : RiskCategory) : categoryScores [] cat = [] := rfl

lemma categoryScores_append (l1 l2 : List RiskFactor) (cat : RiskCategory) :
    categoryScores (l1 ++ l2) cat = categoryScores l1 cat ++ categoryScores l2 cat := by
  simp [categoryScores, List.filter_append]

lemma categoryScores_cons (f : RiskFactor) (fs : List RiskFactor) (cat : RiskCategory) :
    categoryScores (f :: fs) cat =
      if f.category = cat then f.risk_score :: categoryScores fs cat
      else categoryScores fs cat := by
  by_cases h : f.category = cat <;> simp [categoryScores, List.filter_cons, h]

lemma categoryScores_compliance_loop (u : Nat → String) (i : Nat) (reqs : List String)
    (cat : RiskCategory) :
    categoryScores (assess_compliance_loop u i reqs) cat =
      if cat = RiskCategory.compliance then reqs.map (fun _ => (28 : ℚ)) else [] := by
  induction reqs generalizing i with
  | nil => cases cat <;> simp [assess_compliance_loop, categoryScores_nil]
  | cons r rest ih =>
    rw [assess_compliance_loop, categoryScores_cons, ih]
    by_cases h : cat = RiskCategory.compliance
    · subst h
      simp [complianceFactor, RiskFactor.risk_score]
      norm_num
    · have h' : ¬ (complianceFactor (u i) r).category = cat := by
        simpa [complianceFactor] using fun hh => h hh.symm
      simp [h, h']

lemma categoryScores_compliance (u : Nat → String) (c : Customer) (cat : RiskCategory) :
    categoryScores (assess_compliance u c) cat =
      if cat = RiskCategory.compliance then
        c.compliance_requirements.map (fun _ => (28 : ℚ))
      else [] :=
  categoryScores_compliance_loop u 0 c.compliance_requirements cat

lemma categoryScores_biz (uid : String) (c : Customer) (cat : RiskCategory) :
    categoryScores (assess_business_criticality uid c) cat =
      if cat = RiskCategory.business then [bizRisk c] else [] := by
  by_cases h : cat = RiskCategory.business <;>
    simp [assess_business_criticality, categoryScores_cons, categoryScores_nil, h,
      bizRisk, RiskFactor.risk_score, eq_comm]

lemma categoryScores_complexity (u1 u2 : String) (c : Customer) (cat : RiskCategory) :
    categoryScores (assess_channel_complexity u1 u2 c) cat =
      (if cat = RiskCategory.integration then
        (if 5 < c.channels.length then [(65 * 60 / 100 : ℚ)] else [])
      else if cat = RiskCategory.technical then
        (if hasLegacy c then [(55 * 50 / 100 : ℚ)] else [])
      else []) := by
  rw [assess_channel_complexity, categoryScores_append]
  by_cases h1 : 5 < c.channels.length <;> by_cases h2 : hasLegacy c <;> cases cat <;>
    simp [h1, h2, categoryScores_cons, categoryScores_nil, RiskFactor.risk_score]

lemma categoryScores_operational (uid : String) (c : Customer) (cat : RiskCategory) :
    categoryScores (assess_operational_factors uid c) cat =
      if cat = RiskCategory.operational ∧ noContact c then [(40 * 60 / 100 : ℚ)]
      else [] := by
  by_cases h : noContact c <;> cases cat <;>
    simp [assess_operational_factors, h, categoryScores_cons, categoryScores_nil,
      RiskFactor.risk_score]

lemma customer_scores_technical (u : Nat → String) (c : Customer) :
    categoryScores (customerRiskFactors u c) RiskCategory.technical =
      if hasLegacy c then [(55 * 50 / 100 : ℚ)] else [] := by
  rw [customerRiskFactors, categoryScores_append, categoryScores_append,
    categoryScores_append, categoryScores_biz, categoryScores_compliance,
    categoryScores_complexity, categoryScores_operational]
  simp

lemma customer_scores_business (u : Nat → String) (c : Customer) :
    categoryScores (customerRiskFactors u c) RiskCategory.business = [bizRisk c] := by
  rw [customerRiskFactors, categoryScores_append, categoryScores_append,
    categoryScores_append, categoryScores_biz, categoryScores_compliance,
    categoryScores_complexity, categoryScores_operational]
  simp

lemma customer_scores_compliance (u : Nat → String) (c : Customer) :
    categoryScores (customerRiskFactors u c) RiskCategory.compliance =
      c.compliance_requirements.map (fun _ => (28 : ℚ)) := by
  rw [customerRiskFactors, categoryScores_append, categoryScores_append,
    categoryScores_append, categoryScores_biz, categoryScores_compliance,
    categoryScores_complexity, categoryScores_operational]
  simp

lemma customer_scores_operational (u : Nat → String) (c : Customer) :
    categoryScores (customerRiskFactors u c) RiskCategory.operational =
      if noContact c then [(40 * 60 / 100 : ℚ)] else [] := by
  rw [customerRiskFactors, categoryScores_append, categoryScores_append,
    categoryScores_append, categoryScores_biz, categoryScores_compliance,
    categoryScores_complexity, categoryScores_operational]
  simp

lemma customer_scores_integration (u : Nat → String) (c : Customer) :
    categoryScores (customerRiskFactors u c) RiskCategory.integration =
      if 5 < c.channels.length then [(65 * 60 / 100 : ℚ)] else [] := by
  rw [customerRiskFactors, categoryScores_append, categoryScores_append,
    categoryScores_append, categoryScores_biz, categoryScores_compliance,
    categoryScores_complexity, categoryScores_operational]
  simp

lemma contribution_technical (u : Nat → String) (c : Customer) :
    categoryContribution (customerRiskFactors u c) RiskCategory.technical =
      if hasLegacy c then (55 * 50 / 100 : ℚ) * (25 / 100) else 0 := by
  rw [categoryContribution, customer_scores_technical]
  by_cases h : hasLegacy c <;> simp [h, risk_weights]

lemma contribution_business (u : Nat → String) (c : Customer) :
    categoryContribution (customerRiskFactors u c) RiskCategory.business =
      bizRisk c * (30 / 100) := by
  rw [categoryContribution, customer_scores_business]
  simp [risk_weights]

lemma contribution_compliance (u : Nat → String) (c : Customer) :
    categoryContribution (customerRiskFactors u c) RiskCategory.compliance =
      if c.compliance_requirements = [] then 0 else (70 * 40 / 100 : ℚ) * (25 / 100) := by
  rw [categoryContribution, customer_scores_compliance]
  by_cases h : c.compliance_requirements = []
  · simp [h]
  · rw [if_neg h]
    have hne : c.compliance_requirements.map (fun _ => (28 : ℚ)) ≠ [] := by
      simpa using h
    rw [if_neg hne, List.map_const', List.sum_replicate, List.length_replicate]
    have hn : (c.compliance_requirements.length : ℚ) ≠ 0 := by
      simpa [List.length_eq_zero] using h
    rw [nsmul_eq_mul, mul_div_cancel_left₀ _ hn]
    norm_num [risk_weights]

lemma contribution_operational (u : Nat → String) (c : Customer) :
    categoryContribution (customerRiskFactors u c) RiskCategory.operational =
      if noContact c then (40 * 60 / 100 : ℚ) * (15 / 100) else 0 := by
  rw [categoryContribution, customer_scores_operational]
  by_cases h : noContact c <;> simp [h, risk_weights]

lemma contribution_integration (u : Nat → String) (c : Customer) :
    categoryContribution (customerRiskFactors u c) RiskCategory.integration =
      if 5 < c.channels.length then (65 * 60 / 100 : ℚ) * (5 / 100) else 0 := by
  rw [categoryContribution, customer_scores_integration]
  by_cases h : 5 < c.channels.length <;> simp [h, risk_weights]

lemma customerRiskFactors_ne_nil (u : Nat → String) (c : Customer) :
    customerRiskFactors u c ≠ [] := by
  rw [customerRiskFactors, assess_business_criticality]
  simp

lemma assess_customer_score (u : Nat → String) (now : Nat) (c : Customer) :
    (assess_customer u now c).overall_risk_score = customerRiskClosed c := by
  show calculate_overall_risk (customerRiskFactors u c) = _
  rw [calculate_overall_risk, if_neg (customerRiskFactors_ne_nil u c), allCategories]
  simp only [List.map_cons, List.map_nil, List.sum_cons, List.sum_nil, add_zero]
  rw [contribution_technical, contribution_business, contribution_compliance,
    contribution_operational, contribution_integration, customerRiskClosed]
  congr 1
  ring

lemma assess_customer_level (u : Nat → String) (now : Nat) (c : Customer) :
    (assess_customer u now c).risk_level =
      determine_risk_level ((assess_customer u now c).overall_risk_score) := rfl

end RiskAssessor

/-! ### Claim theorems: risk model -/

/-- C8: for every `RiskFactor` with `impact_score` and `likelihood_score`
in [0,100] (the bounds pydantic's `Field(ge=0, le=100)` validates), its
`risk_score` equals `impact_score * likelihood_score / 100` and lies in
[0,100]. -/
theorem riskFactor_score_bounds (f : RiskFactor)
    (h0i : 0 ≤ f.impact_score) (h1i : f.impact_score ≤ 100)
    (h0l : 0 ≤ f.likelihood_score) (h1l : f.likelihood_score ≤ 100) :
    f.risk_score = f.impact_score * f.likelihood_score / 100 ∧
      0 ≤ f.risk_score ∧ f.risk_score ≤ 100 := by
  refine ⟨rfl, div_nonneg (mul_nonneg h0i h0l) (by norm_num), ?_⟩
  rw [RiskFactor.risk_score, div_le_iff₀ (by norm_num : (0 : ℚ) < 100)]
  nlinarith

/-- Witness for C8 at the concrete compliance factor (impact 70,
likelihood 40). -/
theorem riskFactor_score_bounds_witness :
    (RiskAssessor.complianceFactor "w" "HIPAA").risk_score =
        (RiskAssessor.complianceFactor "w" "HIPAA").impact_score *
          (RiskAssessor.complianceFactor "w" "HIPAA").likelihood_score / 100 ∧
      0 ≤ (RiskAssessor.complianceFactor "w" "HIPAA").risk_score ∧
        (RiskAssessor.complianceFactor "w" "HIPAA").risk_score ≤ 100 :=
  riskFactor_score_bounds (RiskAssessor.complianceFactor "w" "HIPAA")
    (by norm_num [RiskAssessor.complianceFactor])
    (by norm_num [RiskAssessor.complianceFactor])
    (by norm_num [RiskAssessor.complianceFactor])
    (by norm_num [RiskAssessor.complianceFactor])

/-- C7: `assess_customer` is deterministic — for one and the same customer
value, two calls (with arbitrary, possibly different, uuid streams and
clock values, the only hidden inputs of the Python implementation) return
the same `overall_risk_score` and the same `risk_level`. -/
theorem assess_customer_deterministic (u1 u2 : Nat → String) (t1 t2 : Nat)
    (c : Customer) :
    (RiskAssessor.assess_customer u1 t1 c).overall_risk_score =
        (RiskAssessor.assess_customer u2 t2 c).overall_risk_score ∧
      (RiskAssessor.assess_customer u1 t1 c).risk_level =
        (RiskAssessor.assess_customer u2 t2 c).risk_level := by
  have h := (RiskAssessor.assess_customer_score u1 t1 c).trans
    (RiskAssessor.assess_customer_score u2 t2 c).symm
  exact ⟨h, by rw [RiskAssessor.assess_customer_level,
    RiskAssessor.assess_customer_level, h]⟩

/-- C6: appending one compliance requirement to an otherwise identical
customer never decreases `overall_risk_score` (uuid streams and clocks of
the two calls are arbitrary, since they do not influence the score). -/
theorem assess_customer_compliance_monotone (u1 u2 : Nat → String) (t1 t2 : Nat)
    (c : Customer) (r : String) :
    (RiskAssessor.assess_customer u1 t1 c).overall_risk_score ≤
      (RiskAssessor.assess_customer u2 t2
        { c with compliance_requirements :=
            c.compliance_requirements ++ [r] }).overall_risk_score := by
  rw [RiskAssessor.assess_customer_score, RiskAssessor.assess_customer_score]
  rw [RiskAssessor.customerRiskClosed, RiskAssessor.customerRiskClosed]
  have hne : ¬ (c.compliance_requirements ++ [r] = []) := by simp
  apply min_le_min le_rfl
  have hc : (if c.compliance_requirements = [] then (0 : ℚ)
        else 70 * 40 / 100 * (25 / 100)) ≤
      (if c.compliance_requirements ++ [r] = [] then (0 : ℚ)
        else 70 * 40 / 100 * (25 / 100)) := by
    rw [if_neg hne]
    split <;> norm_num
  exact add_le_add (add_le_add (add_le_add (add_le_add le_rfl le_rfl) hc) le_rfl) le_rfl

/-- C5: a customer with exactly 6 channels, all THICK_CLIENT or EDI,
business criticality "critical" and compliance requirements HIPAA and
PCI-DSS is assessed with `overall_risk_score > 35` and a `risk_level`
among MEDIUM, HIGH, CRITICAL. -/
theorem assess_customer_scenario2 (u : Nat → String) (t : Nat) (c : Customer)
    (hcount : c.channels.length = 6)
    (htypes : ∀ ch ∈ c.channels,
      ch.channel_type = ChannelType.thick_client ∨ ch.channel_type = ChannelType.edi)
    (hcrit : c.business_criticality = "critical")
    (hcomp : c.compliance_requirements = ["HIPAA", "PCI-DSS"]) :
    35 < (RiskAssessor.assess_customer u t c).overall_risk_score ∧
      ((RiskAssessor.assess_customer u t c).risk_level = RiskSeverity.medium ∨
       (RiskAssessor.assess_customer u t c).risk_level = RiskSeverity.high ∨
       (RiskAssessor.assess_customer u t c).risk_level = RiskSeverity.critical) := by
  have hL : RiskAssessor.hasLegacy c = true := by
    rw [RiskAssessor.hasLegacy, List.any_eq_true]
    have hnil : c.channels ≠ [] := by
      intro h
      rw [h] at hcount
      exact absurd hcount (by decide)
    obtain ⟨ch, hch⟩ := List.exists_mem_of_ne_nil c.channels hnil
    refine ⟨ch, hch, ?_⟩
    rcases htypes ch hch with h | h <;> simp [h]
  have hbiz : RiskAssessor.bizRisk c = 76 := by
    rw [RiskAssessor.bizRisk, hcrit]
    have hlow : pyLower "critical" = "critical" := by decide
    have hmap : RiskAssessor.criticality_map "critical" = (80, 95) := by decide
    rw [hlow, hmap]
    norm_num
  have hscore : (RiskAssessor.assess_customer u t c).overall_risk_score =
      RiskAssessor.customerRiskClosed c := RiskAssessor.assess_customer_score u t c
  rw [hscore, RiskAssessor.assess_customer_level, hscore]
  have hnonnil : ¬ ((["HIPAA", "PCI-DSS"] : List String) = []) := by decide
  rcases Bool.eq_false_or_eq_true (RiskAssessor.noContact c) with hnc | hnc
  · have hval : RiskAssessor.customerRiskClosed c = 1689 / 40 := by
      rw [RiskAssessor.customerRiskClosed, hL, hcount, hcomp, hbiz, hnc,
        if_pos rfl, if_neg hnonnil, if_pos rfl, if_pos (by decide : 5 < 6)]
      norm_num [min_def]
    rw [hval]
    norm_num [RiskAssessor.determine_risk_level]
  · have hval : RiskAssessor.customerRiskClosed c = 309 / 8 := by
      rw [RiskAssessor.customerRiskClosed, hL, hcount, hcomp, hbiz, hnc,
        if_pos rfl, if_neg hnonnil, if_neg (by decide : ¬ (false = true)),
        if_pos (by decide : 5 < 6)]
      norm_num [min_def]
    rw [hval]
    norm_num [RiskAssessor.determine_risk_level]

/-- Witness for C5 at `scenario2Customer`. -/
theorem assess_customer_scenario2_witness :
    35 < (RiskAssessor.assess_customer (fun _ => "w") 0 scenario2Customer).overall_risk_score ∧
      ((RiskAssessor.assess_customer (fun _ => "w") 0 scenario2Customer).risk_level =
          RiskSeverity.medium ∨
       (RiskAssessor.assess_customer (fun _ => "w") 0 scenario2Customer).risk_level =
          RiskSeverity.high ∨
       (RiskAssessor.assess_customer (fun _ => "w") 0 scenario2Customer).risk_level =
          RiskSeverity.critical) :=
  assess_customer_scenario2 (fun _ => "w") 0 scenario2Customer
    (by decide) (by decide) rfl rfl

/-! ### Helper lemmas: migration-plan state machine -/

namespace MigrationOrchestrator

lemma simulate_status (cm : ChannelMigration) :
    (simulateChannelMigration cm).status = MigrationStatus.ready := rfl

lemma simulate_passed (cm : ChannelMigration) :
    (simulateChannelMigration cm).simulation_passed = true := rfl

lemma all_passed_after_simulate (l : List ChannelMigration) :
    (l.map simulateChannelMigration).all (fun cm => cm.simulation_passed) = true := by
  rw [List.all_eq_true]
  intro x hx
  rcases List.mem_map.mp hx with ⟨a, _, rfl⟩
  rfl

lemma storePlan_self (store : PlanStore) (pid : String) (p : MigrationPlan) :
    storePlan store pid p pid = some p := by
  simp [storePlan]

lemma matchesChannel_false (cid : String) (cm : ChannelMigration)
    (h : cm.channel_id ≠ cid) : matchesChannel (some cid) cm = false := by
  simp [matchesChannel, h]

lemma matchesChannel_true (cid : String) (cm : ChannelMigration)
    (h : cm.channel_id = cid) : matchesChannel (some cid) cm = true := by
  simp [matchesChannel, h]

lemma mapEqSelf {α : Type} (l : List α) (f : α → α) (h : ∀ a ∈ l, f a = a) :
    l.map f = l := by
  induction l with
  | nil => rfl
  | cons a t ih =>
    rw [List.map_cons, h a (List.mem_cons_self a t),
      ih (fun b hb => h b (List.mem_cons_of_mem a hb))]

end MigrationOrchestrator

/-! ### Claim theorems: migration-plan state machine -/

/-- C1: on a stored plan with at least one channel migration,
`run_simulations` succeeds, and in the updated plan every channel
migration has status READY iff every channel's recorded simulation
passed; whenever not all passed, no channel migration is READY and the
plan's overall status is SIMULATION (vacuously, since the implementation
records every simulation as passed). -/
theorem run_simulations_ready_iff (store : PlanStore) (pid : String)
    (plan : MigrationPlan) (hfind : store pid = some plan)
    (hne : plan.channel_migrations ≠ []) :
    ∃ plan',
      (MigrationOrchestrator.run_simulations store pid).1 =
        Except.ok (plan'.channel_migrations.map
          (fun cm => (cm.channel_id, MigrationOrchestrator.simPassedResult))) ∧
      (MigrationOrchestrator.run_simulations store pid).2 pid = some plan' ∧
      ((∀ cm ∈ plan'.channel_migrations, cm.status = MigrationStatus.ready) ↔
        (∀ cm ∈ plan'.channel_migrations, cm.simulation_passed = true)) ∧
      ((¬ ∀ cm ∈ plan'.channel_migrations, cm.simulation_passed = true) →
        ((∀ cm ∈ plan'.channel_migrations, cm.status ≠ MigrationStatus.ready) ∧
          plan'.overall_status = MigrationStatus.simulation)) := by
  refine ⟨{ plan with
    channel_migrations :=
      plan.channel_migrations.map MigrationOrchestrator.simulateChannelMigration,
    overall_status := MigrationStatus.ready }, ?_, ?_, ?_, ?_⟩
  · simp [MigrationOrchestrator.run_simulations, hfind,
      MigrationOrchestrator.all_passed_after_simulate]
  · simp [MigrationOrchestrator.run_simulations, hfind,
      MigrationOrchestrator.all_passed_after_simulate,
      MigrationOrchestrator.storePlan_self, MigrationOrchestrator.simulate_passed]
  · constructor
    · intro _ cm hcm
      rcases List.mem_map.mp hcm with ⟨a, _, rfl⟩
      rfl
    · intro _ cm hcm
      rcases List.mem_map.mp hcm with ⟨a, _, rfl⟩
      rfl
  · intro hnot
    exact absurd
      (fun cm hcm => by rcases List.mem_map.mp hcm with ⟨a, _, rfl⟩; rfl) hnot

/-- Witness for C1 at `readyStore` / `readyPlan` (two channel migrations). -/
theorem run_simulations_ready_iff_witness :
    ∃ plan',
      (MigrationOrchestrator.run_simulations readyStore "PLAN-1").1 =
        Except.ok (plan'.channel_migrations.map
          (fun cm => (cm.channel_id, MigrationOrchestrator.simPassedResult))) ∧
      (MigrationOrchestrator.run_simulations readyStore "PLAN-1").2 "PLAN-1" = some plan' ∧
      ((∀ cm ∈ plan'.channel_migrations, cm.status = MigrationStatus.ready) ↔
        (∀ cm ∈ plan'.channel_migrations, cm.simulation_passed = true)) ∧
      ((¬ ∀ cm ∈ plan'.channel_migrations, cm.simulation_passed = true) →
        ((∀ cm ∈ plan'.channel_migrations, cm.status ≠ MigrationStatus.ready) ∧
          plan'.overall_status = MigrationStatus.simulation)) :=
  run_simulations_ready_iff readyStore "PLAN-1" readyPlan rfl (by decide)

/-- C2: `execute_migration` on a stored plan whose overall status is not
READY fails with the invalid-state error and leaves the registry — hence
the plan and every one of its channel migrations — unchanged (the error
is raised before any mutation). -/
theorem execute_migration_not_ready (store : PlanStore) (pid : String)
    (channel_id : Option String) (now : Nat) (plan : MigrationPlan)
    (hfind : store pid = some plan)
    (hstatus : plan.overall_status ≠ MigrationStatus.ready) :
    (MigrationOrchestrator.execute_migration store pid channel_id now).1 =
        Except.error (OrchError.planNotReady pid) ∧
      (MigrationOrchestrator.execute_migration store pid channel_id now).2 = store ∧
      (MigrationOrchestrator.execute_migration store pid channel_id now).2 pid =
        some plan := by
  simp [MigrationOrchestrator.execute_migration, hfind, hstatus]

/-- Witness for C2 at `planningStore` / `planningPlan` (status PLANNING). -/
theorem execute_migration_not_ready_witness :
    (MigrationOrchestrator.execute_migration planningStore "PLAN-2" none 42).1 =
        Except.error (OrchError.planNotReady "PLAN-2") ∧
      (MigrationOrchestrator.execute_migration planningStore "PLAN-2" none 42).2 =
        planningStore ∧
      (MigrationOrchestrator.execute_migration planningStore "PLAN-2" none 42).2 "PLAN-2" =
        some planningPlan :=
  execute_migration_not_ready planningStore "PLAN-2" none 42 planningPlan rfl (by decide)

/-- C9: `rollback_migration` with a channel id matching no channel
migration of the stored plan leaves every channel migration unchanged and
yet sets the plan's overall status to ROLLED_BACK, because the
all-targeted-channels-rolled-back check ranges over an empty list. -/
theorem rollback_migration_unmatched (store : PlanStore) (pid cid reason : String)
    (plan : MigrationPlan) (hfind : store pid = some plan)
    (hno : ∀ cm ∈ plan.channel_migrations, cm.channel_id ≠ cid) :
    ∃ plan',
      (MigrationOrchestrator.rollback_migration store pid (some cid) reason).1 =
        Except.ok plan' ∧
      (MigrationOrchestrator.rollback_migration store pid (some cid) reason).2 pid =
        some plan' ∧
      plan'.channel_migrations = plan.channel_migrations ∧
      plan'.overall_status = MigrationStatus.rolled_back := by
  have hmap : MigrationOrchestrator.rollbackTargets (some cid) reason
      plan.channel_migrations = plan.channel_migrations := by
    apply MigrationOrchestrator.mapEqSelf
    intro cm hcm
    rw [MigrationOrchestrator.matchesChannel_false cid cm (hno cm hcm)]
    rfl
  have hfil : plan.channel_migrations.filter
      (MigrationOrchestrator.matchesChannel (some cid)) = [] := by
    rw [List.filter_eq_nil_iff]
    intro cm hcm
    rw [MigrationOrchestrator.matchesChannel_false cid cm (hno cm hcm)]
    exact Bool.false_ne_true
  refine ⟨{ plan with overall_status := MigrationStatus.rolled_back }, ?_, ?_, rfl, rfl⟩
  · simp only [MigrationOrchestrator.rollback_migration, hfind, hmap, hfil]
    rfl
  · simp only [MigrationOrchestrator.rollback_migration, hfind, hmap, hfil]
    simp [MigrationOrchestrator.storePlan_self]

/-- Witness for C9 at `readyStore` with the unmatched channel id `"Z"`. -/
theorem rollback_migration_unmatched_witness :
    ∃ plan',
      (MigrationOrchestrator.rollback_migration readyStore "PLAN-1" (some "Z") "why").1 =
        Except.ok plan' ∧
      (MigrationOrchestrator.rollback_migration readyStore "PLAN-1" (some "Z") "why").2
        "PLAN-1" = some plan' ∧
      plan'.channel_migrations = readyPlan.channel_migrations ∧
      plan'.overall_status = MigrationStatus.rolled_back :=
  rollback_migration_unmatched readyStore "PLAN-1" "Z" "why" readyPlan rfl (by decide)

/-- C10: on a stored READY plan containing channel `c` and at least one
other, non-completed channel, `execute_migration(plan_id, c)` completes
exactly the targeted channel (status COMPLETED, cutover timestamp set),
leaves the plan IN_PROGRESS (not COMPLETED), and an immediately following
`execute_migration` call on the same plan fails with the invalid-state
error. -/
theorem execute_migration_single_channel (store : PlanStore) (pid c : String)
    (now1 now2 : Nat) (cid2 : Option String) (plan : MigrationPlan)
    (hfind : store pid = some plan)
    (hready : plan.overall_status = MigrationStatus.ready)
    (hc : ∃ cm ∈ plan.channel_migrations, cm.channel_id = c)
    (hother : ∃ cm ∈ plan.channel_migrations,
      cm.channel_id ≠ c ∧ cm.status ≠ MigrationStatus.completed) :
    ∃ plan',
      (MigrationOrchestrator.execute_migration store pid (some c) now1).1 =
        Except.ok plan' ∧
      (MigrationOrchestrator.execute_migration store pid (some c) now1).2 pid =
        some plan' ∧
      (∀ cm ∈ plan'.channel_migrations, cm.channel_id = c →
        cm.status = MigrationStatus.completed ∧ cm.cutover_timestamp = some now1) ∧
      (∃ cm ∈ plan'.channel_migrations, cm.channel_id = c) ∧
      plan'.overall_status = MigrationStatus.in_progress ∧
      (MigrationOrchestrator.execute_migration
        (MigrationOrchestrator.execute_migration store pid (some c) now1).2
        pid cid2 now2).1 = Except.error (OrchError.planNotReady pid) := by
  obtain ⟨cm0, hmem0, hne0, hst0⟩ := hother
  have hg0 : (if MigrationOrchestrator.matchesChannel (some c) cm0 then
      MigrationOrchestrator.executeChannelMigration now1 cm0 else cm0) = cm0 := by
    rw [MigrationOrchestrator.matchesChannel_false c cm0 hne0]
    rfl
  have hmem0' : cm0 ∈ MigrationOrchestrator.executeTargets (some c) now1
      plan.channel_migrations := by
    rw [MigrationOrchestrator.executeTargets]
    exact hg0 ▸ List.mem_map_of_mem _ hmem0
  have hall : (MigrationOrchestrator.executeTargets (some c) now1
      plan.channel_migrations).all
        (fun cm => cm.status == MigrationStatus.completed) = false := by
    rw [Bool.eq_false_iff]
    intro h
    have := List.all_eq_true.mp h cm0 hmem0'
    rw [beq_iff_eq] at this
    exact hst0 this
  have hnotready : ¬ plan.overall_status ≠ MigrationStatus.ready := by
    rw [hready]
    exact fun h => h rfl
  have hrun : MigrationOrchestrator.execute_migration store pid (some c) now1 =
      (Except.ok ({ plan with
          overall_status := MigrationStatus.in_progress,
          actual_start := some now1,
          channel_migrations := MigrationOrchestrator.executeTargets
            (some c) now1 plan.channel_migrations }),
        storePlan store pid
          ({ plan with
            overall_status := MigrationStatus.in_progress,
            actual_start := some now1,
            channel_migrations := MigrationOrchestrator.executeTargets
              (some c) now1 plan.channel_migrations })) := by
    simp only [MigrationOrchestrator.execute_migration, hfind, if_neg hnotready]
    simp only [hall]
    rfl
  refine ⟨_, by rw [hrun], by rw [hrun]; exact MigrationOrchestrator.storePlan_self _ _ _,
    ?_, ?_, rfl, ?_⟩
  · intro cm hcm hcid
    rcases List.mem_map.mp hcm with ⟨a, hmema, rfl⟩
    by_cases hma : MigrationOrchestrator.matchesChannel (some c) a = true
    · rw [if_pos hma]
      exact ⟨rfl, rfl⟩
    · rw [if_neg (by simpa using hma)] at hcid ⊢
      rw [MigrationOrchestrator.matchesChannel_true c a hcid] at hma
      exact absurd rfl hma
  · obtain ⟨cm1, hmem1, hcid1⟩ := hc
    refine ⟨MigrationOrchestrator.executeChannelMigration now1 cm1, ?_, hcid1⟩
    have : (if MigrationOrchestrator.matchesChannel (some c) cm1 then
        MigrationOrchestrator.executeChannelMigration now1 cm1 else cm1) =
        MigrationOrchestrator.executeChannelMigration now1 cm1 := by
      simp [MigrationOrchestrator.matchesChannel_true c cm1 hcid1]
    exact this ▸ List.mem_map_of_mem _ hmem1
  · rw [hrun]
    simp [MigrationOrchestrator.execute_migration,
      MigrationOrchestrator.storePlan_self]

/-- Witness for C10 at `readyStore` targeting channel `"A"` (channel `"B"`
remains READY, so the plan is not completed). -/
theorem execute_migration_single_channel_witness :
    ∃ plan',
      (MigrationOrchestrator.execute_migration readyStore "PLAN-1" (some "A") 7).1 =
        Except.ok plan' ∧
      (MigrationOrchestrator.execute_migration readyStore "PLAN-1" (some "A") 7).2
        "PLAN-1" = some plan' ∧
      (∀ cm ∈ plan'.channel_migrations, cm.channel_id = "A" →
        cm.status = MigrationStatus.completed ∧ cm.cutover_timestamp = some 7) ∧
      (∃ cm ∈ plan'.channel_migrations, cm.channel_id = "A") ∧
      plan'.overall_status = MigrationStatus.in_progress ∧
      (MigrationOrchestrator.execute_migration
        (MigrationOrchestrator.execute_migration readyStore "PLAN-1" (some "A") 7).2
        "PLAN-1" (some "B") 9).1 = Except.error (OrchError.planNotReady "PLAN-1") :=
  execute_migration_single_channel readyStore "PLAN-1" "A" 7 9 (some "B") readyPlan
    rfl rfl ⟨readyChannelMigration "A", by decide, rfl⟩
    ⟨readyChannelMigration "B", by decide, by decide, by decide⟩

/-! ### Claim theorems: plan timeline (C4) -/

/-- C4 counterexample: for a customer with zero channels and the phased
strategy, the created plan's `planned_completion` equals its
`planned_start` (the phased completion adds `2 weeks × 0 channels`), so
`planned_completion` is not strictly later than `planned_start`. -/
theorem create_plan_timeline_counterexample :
    (MigrationOrchestrator.create_migration_plan emptyPlanStore (fun _ _ => "w") 0
      zeroChannelCustomer "phased").1.planned_start = some 604800 ∧
    (MigrationOrchestrator.create_migration_plan emptyPlanStore (fun _ _ => "w") 0
      zeroChannelCustomer "phased").1.planned_completion = some 604800 ∧
    ¬ ∃ s e,
      (MigrationOrchestrator.create_migration_plan emptyPlanStore (fun _ _ => "w") 0
        zeroChannelCustomer "phased").1.planned_start = some s ∧
      (MigrationOrchestrator.create_migration_plan emptyPlanStore (fun _ _ => "w") 0
        zeroChannelCustomer "phased").1.planned_completion = some e ∧
      s < e := by
  have h1 : (MigrationOrchestrator.create_migration_plan emptyPlanStore (fun _ _ => "w") 0
      zeroChannelCustomer "phased").1.planned_start = some 604800 := by decide
  have h2 : (MigrationOrchestrator.create_migration_plan emptyPlanStore (fun _ _ => "w") 0
      zeroChannelCustomer "phased").1.planned_completion = some 604800 := by decide
  refine ⟨h1, h2, ?_⟩
  rintro ⟨s, e, hs, he, hlt⟩
  rw [h1, Option.some.injEq] at hs
  rw [h2, Option.some.injEq] at he
  omega

/-- C4 (amended): for every customer and every strategy among phased,
big-bang and parallel, the created plan has
`planned_start ≤ planned_completion`, and the inequality is strict
whenever the strategy is big-bang or parallel, or the customer has at
least one channel; only a phased plan for a zero-channel customer has
`planned_completion = planned_start`. -/
theorem create_plan_timeline_order (store : PlanStore) (u : Nat → Nat → String)
    (now : Nat) (customer : Customer) (strategy : String)
    (hs : strategy = "phased" ∨ strategy = "big-bang" ∨ strategy = "parallel") :
    ∃ s e,
      (MigrationOrchestrator.create_migration_plan store u now
        customer strategy).1.planned_start = some s ∧
      (MigrationOrchestrator.create_migration_plan store u now
        customer strategy).1.planned_completion = some e ∧
      s ≤ e ∧
      ((strategy ≠ "phased" ∨ customer.channels ≠ []) → s < e) := by
  rcases hs with hs | hs | hs <;> subst hs
  · refine ⟨now + 7 * 86400,
      now + 7 * 86400 + customer.channels.length * 2 * 7 * 86400, ?_, ?_, ?_, ?_⟩
    · simp [MigrationOrchestrator.create_migration_plan,
        MigrationOrchestrator.calculate_timeline]
    · simp [MigrationOrchestrator.create_migration_plan,
        MigrationOrchestrator.calculate_timeline]
    · exact Nat.le_add_right _ _
    · rintro (h | h)
      · exact absurd rfl h
      · have hpos : 0 < customer.channels.length := List.length_pos.mpr h
        have : 0 < customer.channels.length * 2 * 7 * 86400 := by positivity
        omega
  · refine ⟨now + 14 * 86400, now + 14 * 86400 + 3 * 86400, ?_, ?_, by omega,
      fun _ => by omega⟩
    · simp [MigrationOrchestrator.create_migration_plan,
        MigrationOrchestrator.calculate_timeline]
    · simp [MigrationOrchestrator.create_migration_plan,
        MigrationOrchestrator.calculate_timeline]
  · refine ⟨now + 7 * 86400, now + 7 * 86400 + 8 * 7 * 86400, ?_, ?_, by omega,
      fun _ => by omega⟩
    · simp [MigrationOrchestrator.create_migration_plan,
        MigrationOrchestrator.calculate_timeline]
    · simp [MigrationOrchestrator.create_migration_plan,
        MigrationOrchestrator.calculate_timeline]

/-- Witness for the amended C4: big-bang strategy, zero-channel customer. -/
theorem create_plan_timeline_order_witness :
    ∃ s e,
      (MigrationOrchestrator.create_migration_plan emptyPlanStore (fun _ _ => "w") 0
        zeroChannelCustomer "big-bang").1.planned_start = some s ∧
      (MigrationOrchestrator.create_migration_plan emptyPlanStore (fun _ _ => "w") 0
        zeroChannelCustomer "big-bang").1.planned_completion = some e ∧
      s ≤ e ∧
      (("big-bang" ≠ "phased" ∨ zeroChannelCustomer.channels ≠ []) → s < e) :=
  create_plan_timeline_order emptyPlanStore (fun _ _ => "w") 0 zeroChannelCustomer
    "big-bang" (Or.inr (Or.inl rfl))

/-! ### Claim theorems: cutover rollback (C3) -/

/-- C3 counterexample: in a concrete system whose plan registry stores the
plan owning channel migration `CH-1` (status COMPLETED) and whose cutover
registry holds the initiated cutover `CUTOVER-CH-1` for it,
`rollback_cutover` runs the 5-step reversal and marks the cutover
`rolled_back`, but the owning channel migration's status is NOT set to
ROLLED_BACK — it stays COMPLETED, refuting the claim. -/
theorem rollback_cutover_counterexample :
    (∃ rb, (rollback_cutover_system cutoverSystem "CUTOVER-CH-1" "degraded" 900).1 =
        Except.ok rb ∧ rb.steps = CutoverCoordinator.rollback_script) ∧
    (∃ cp, (rollback_cutover_system cutoverSystem "CUTOVER-CH-1" "degraded" 900).2.active_cutovers
        "CUTOVER-CH-1" = some cp ∧ cp.status = "rolled_back") ∧
    (∃ p, (rollback_cutover_system cutoverSystem "CUTOVER-CH-1" "degraded" 900).2.migration_plans
        "PLAN-3" = some p ∧
      ∃ cm ∈ p.channel_migrations, cm.channel_id = "CH-1" ∧
        cm.status ≠ MigrationStatus.rolled_back) := by
  exact ⟨⟨_, rfl, rfl⟩, ⟨_, rfl, by decide⟩, ⟨completedPlan, rfl,
    completedChannelMigration, by decide, rfl, by decide⟩⟩

/-- C3 (amended): for every active cutover id, `rollback_cutover` executes
the fixed 5-step reversal script and sets the cutover's status to
`rolled_back`; the channel migration that owns the cutover is NOT
modified — the plan registry holding every channel migration is returned
unchanged. -/
theorem rollback_cutover_behavior (sys : MigrationSystem) (cid reason : String)
    (now : Nat) (cutover : CutoverCoordinator.CutoverPlan)
    (hfind : sys.active_cutovers cid = some cutover) :
    (∃ rb, (rollback_cutover_system sys cid reason now).1 = Except.ok rb ∧
      rb.steps = CutoverCoordinator.rollback_script ∧
      rb.steps.length = 5 ∧ rb.status = "completed") ∧
    (∃ cp, (rollback_cutover_system sys cid reason now).2.active_cutovers cid =
        some cp ∧ cp.status = "rolled_back") ∧
    (rollback_cutover_system sys cid reason now).2.migration_plans =
      sys.migration_plans := by
  simp only [rollback_cutover_system, CutoverCoordinator.rollback_cutover, hfind]
  refine ⟨⟨_, rfl, rfl, rfl, rfl⟩,
    ⟨{ cutover with
        status := "rolled_back",
        rollback := some
          { cutover_id := cid,
            rollback_initiated_at := now,
            reason := reason,
            status := "completed",
            steps := CutoverCoordinator.rollback_script,
            completed_at := some now } },
      ?_, rfl⟩, trivial⟩
  simp [CutoverCoordinator.storeCutover]

/-- Witness for the amended C3 at `cutoverSystem` / `CUTOVER-CH-1`. -/
theorem rollback_cutover_behavior_witness :
    (∃ rb, (rollback_cutover_system cutoverSystem "CUTOVER-CH-1" "why" 901).1 =
        Except.ok rb ∧
      rb.steps = CutoverCoordinator.rollback_script ∧
      rb.steps.length = 5 ∧ rb.status = "completed") ∧
    (∃ cp, (rollback_cutover_system cutoverSystem "CUTOVER-CH-1" "why" 901).2.active_cutovers
        "CUTOVER-CH-1" = some cp ∧ cp.status = "rolled_back") ∧
    (rollback_cutover_system cutoverSystem "CUTOVER-CH-1" "why" 901).2.migration_plans =
      cutoverSystem.migration_plans :=
  rollback_cutover_behavior cutoverSystem "CUTOVER-CH-1" "why" 901
    ((CutoverCoordinator.initiate_cutover CutoverCoordinator.emptyCutoverStore
      completedChannelMigration CutoverStrategy.gradual 500).1) rfl

end AgenticMigration
